import Mathlib

/-
  Verification of the LDAP sudo provider orchestrator
  (src/providers/ldap/sdap_sudo.c).

  The module is shallowly embedded: each C function that the claims
  concern becomes a Lean function over explicit state and an explicit
  environment describing the behaviour of the external collaborators
  (configuration loading, the host-identity fetch, the refresh-send
  operations, the offline flag).  Machine details that do not influence
  the orchestration logic (talloc ownership, debug logging) are elided;
  control flow and every assignment to the modelled fields follow the C
  source line by line.
-/

namespace SdapSudo

/-- POSIX success code, EOK in the source. -/
def EOK : Nat := 0

/-- POSIX errno ENOENT (no such entity), used for the deleted-rule remap. -/
def ENOENT : Nat := 2

/-- POSIX errno EAGAIN, used for the offline short-circuit reply. -/
def EAGAIN : Nat := 11

/-- POSIX errno ENOMEM, used when a refresh-send returns no in-flight handle. -/
def ENOMEM : Nat := 12

/-- POSIX errno EINVAL, used by the handler for an unrecognized request type. -/
def EINVAL : Nat := 22

/-- Modelled from the spec: ERR_INTERNAL is the daemon's internal-error code
(the header defining it is not part of this repository slice).  It lives in a
private error range far above the POSIX errno values, so in particular it is
distinct from EINVAL. -/
def ERR_INTERNAL : Nat := 0x555D0001

/-- Data-provider error categories used by this module:
DP_ERR_OK, DP_ERR_OFFLINE and DP_ERR_FATAL in the source. -/
inductive DpError where
  | ok
  | offline
  | fatal
deriving DecidableEq, Repr

/-- Modelled from the spec: the request kind BE_REQ_SUDO_FULL (full refresh).
The enum declaring it is not part of this repository slice; only distinctness
of the two recognized values matters. -/
def BE_REQ_SUDO_FULL : Nat := 0

/-- Modelled from the spec: the request kind BE_REQ_SUDO_RULES (selective
rules refresh). -/
def BE_REQ_SUDO_RULES : Nat := 1

/-- An incoming sudo request: its type tag and, for a rules refresh, the
requested rule identifiers (be_sudo_req in the source). -/
structure BeSudoReq where
  type : Nat
  rules : List String
deriving DecidableEq, Repr

/-- One invocation of the reply channel sdap_handler_done: the
data-provider error category and the errno-style code it carries. -/
structure Reply where
  dpError : DpError
  errnum : Nat
deriving DecidableEq, Repr

/-- A dispatched asynchronous operation: which collaborator the handler
invoked, and with which arguments. -/
inductive Dispatch where
  | full
  | rules (ids : List String)
deriving DecidableEq, Repr

/-- The observable outcome of one call of sdap_sudo_handler: the replies it
emitted synchronously and the operation it left in flight (with
sdap_sudo_reply registered as its completion callback), if any. -/
structure HandlerResult where
  replies : List Reply
  dispatched : Option Dispatch
deriving DecidableEq, Repr

/-- Environment of one handler call: the shared offline flag read through
be_is_offline, and whether each refresh-send collaborator returns an
in-flight handle (false models a NULL return). -/
structure HandlerEnv where
  offline : Bool
  fullSendOk : Bool
  rulesSendOk : Bool
deriving DecidableEq, Repr

/-- Embedding of sdap_sudo_handler.  The C function first short-circuits on
be_is_offline, then switches on the request type: recognized kinds dispatch
the matching refresh-send and register sdap_sudo_reply as callback, an
unrecognized kind goes to the fail label with EINVAL, and a NULL handle from
a send goes to the fail label with ENOMEM; the fail label replies with
DP_ERR_FATAL. -/
def sdap_sudo_handler (env : HandlerEnv) (sudo_req : BeSudoReq) : HandlerResult :=
  if env.offline then
    { replies := [{ dpError := .offline, errnum := EAGAIN }], dispatched := none }
  else if sudo_req.type = BE_REQ_SUDO_FULL then
    if env.fullSendOk then
      { replies := [], dispatched := some .full }
    else
      { replies := [{ dpError := .fatal, errnum := ENOMEM }], dispatched := none }
  else if sudo_req.type = BE_REQ_SUDO_RULES then
    if env.rulesSendOk then
      { replies := [], dispatched := some (.rules sudo_req.rules) }
    else
      { replies := [{ dpError := .fatal, errnum := ENOMEM }], dispatched := none }
  else
    { replies := [{ dpError := .fatal, errnum := EINVAL }], dispatched := none }

/-- What the dispatched operation's recv function reports on completion:
its return code, the data-provider error it resolved, and (meaningful for
rules refreshes only) whether the targeted rule had been deleted upstream. -/
structure RecvResult where
  ret : Nat
  dp_error : DpError
  deleted : Bool
deriving DecidableEq, Repr

/-- Embedding of sdap_sudo_reply, the completion callback of a dispatched
refresh.  It switches on the stored request type: a full refresh passes the
recv outcome through; a rules refresh remaps a successful outcome with
deleted == true to ENOENT; any other type yields DP_ERR_FATAL with
ERR_INTERNAL.  It then invokes sdap_handler_done once with the resulting
category and code. -/
def sdap_sudo_reply (type : Nat) (recv : RecvResult) : Reply :=
  if type = BE_REQ_SUDO_FULL then
    { dpError := recv.dp_error, errnum := recv.ret }
  else if type = BE_REQ_SUDO_RULES then
    if recv.ret = EOK ∧ recv.deleted = true then
      { dpError := recv.dp_error, errnum := ENOENT }
    else
      { dpError := recv.dp_error, errnum := recv.ret }
  else
    { dpError := .fatal, errnum := ERR_INTERNAL }

/-- Complete lifecycle of one request: the handler runs, and if it left an
operation in flight, that operation completes exactly once (the tevent
single-shot callback contract) with the given outcome, upon which
sdap_sudo_reply emits the final reply.  The returned list collects, in
order, every invocation of the reply channel sdap_handler_done made for
this request. -/
def handleRequest (env : HandlerEnv) (sudo_req : BeSudoReq)
    (outcome : RecvResult) : List Reply :=
  let h := sdap_sudo_handler env sudo_req
  match h.dispatched with
  | none => h.replies
  | some _ => h.replies ++ [sdap_sudo_reply sudo_req.type outcome]

/-- The options ldap_get_sudo_options loads from configuration. -/
structure SyncOptions where
  use_host_filter : Bool
  include_regexp : Bool
  include_netgroups : Bool
deriving DecidableEq, Repr

/-- The provider context sdap_sudo_ctx: the fields of the C struct that this
module reads or writes.  hostnames and ip_addr are none while unset (the
struct is allocated zeroed, so both start as NULL). -/
structure SudoCtx where
  full_refresh_done : Bool
  use_host_filter : Bool
  include_regexp : Bool
  include_netgroups : Bool
  hostnames : Option (List String)
  ip_addr : Option (List String)
deriving DecidableEq, Repr

/-- Environment of one initialization run: the return code and values that
ldap_get_sudo_options produces, whether sdap_sudo_get_hostinfo_send returns
an in-flight request (false models a NULL return), and the return code of
sdap_sudo_ptask_setup should it be called synchronously. -/
structure InitEnv where
  options_ret : Nat
  options : SyncOptions
  hostinfo_send_ok : Bool
  ptask_setup_ret : Nat
deriving DecidableEq, Repr

/-- The observable outcome of sdap_sudo_init: its return code, the provider
context it leaves behind (none when the context was freed on the error
path), how many synchronous calls of sdap_sudo_ptask_setup it made, and
whether it left a host-identity fetch in flight with
sdap_sudo_get_hostinfo_done registered as its callback. -/
structure InitResult where
  ret : Nat
  ctx : Option SudoCtx
  arm_attempts : Nat
  fetch_started : Bool
deriving DecidableEq, Repr

/-- Embedding of sdap_sudo_init.  The C function zero-allocates the context,
clears full_refresh_done, loads the options (a failure there frees the
context and returns that code), then starts the host-identity fetch: if the
send returns NULL it forces use_host_filter to false and calls
sdap_sudo_ptask_setup once (whose failure is only logged), otherwise it
registers sdap_sudo_get_hostinfo_done as the fetch callback; either way it
returns EOK. -/
def sdap_sudo_init (env : InitEnv) : InitResult :=
  if env.options_ret ≠ EOK then
    { ret := env.options_ret, ctx := none, arm_attempts := 0, fetch_started := false }
  else
    let ctx0 : SudoCtx :=
      { full_refresh_done := false
        use_host_filter := env.options.use_host_filter
        include_regexp := env.options.include_regexp
        include_netgroups := env.options.include_netgroups
        hostnames := none
        ip_addr := none }
    if env.hostinfo_send_ok then
      { ret := EOK, ctx := some ctx0, arm_attempts := 0, fetch_started := true }
    else
      { ret := EOK, ctx := some { ctx0 with use_host_filter := false }
        arm_attempts := 1, fetch_started := false }

/-- The observable outcome of the host-identity completion callback: the
updated provider context, and how many calls of sdap_sudo_ptask_setup the
callback made. -/
structure HostinfoDoneResult where
  ctx : SudoCtx
  arm_attempts : Nat
deriving DecidableEq, Repr

/-- Embedding of sdap_sudo_get_hostinfo_done.  The recv result is an error
code or the fetched hostname and address lists (on a recv failure the local
output pointers stay NULL).  On failure the callback forces use_host_filter
to false; in every case it replaces the stored hostnames and ip_addr with
the fetched values and calls sdap_sudo_ptask_setup once, whose failure is
only logged. -/
def sdap_sudo_get_hostinfo_done (ctx : SudoCtx)
    (recv : Except Nat (List String × List String)) : HostinfoDoneResult :=
  match recv with
  | .error _ =>
    { ctx := { ctx with use_host_filter := false, hostnames := none, ip_addr := none }
      arm_attempts := 1 }
  | .ok (hns, ips) =>
    { ctx := { ctx with hostnames := some hns, ip_addr := some ips }
      arm_attempts := 1 }

/-- Provider contexts reachable in this module: a context as
sdap_sudo_init leaves it, or, when init left a fetch in flight, that
context as the completion callback rewrites it. -/
inductive ReachableCtx : SudoCtx → Prop
  | init_ctx (env : InitEnv) (ctx : SudoCtx) :
      (sdap_sudo_init env).ctx = some ctx → ReachableCtx ctx
  | hostinfo_done_ctx (env : InitEnv) (ctx : SudoCtx)
      (recv : Except Nat (List String × List String)) :
      (sdap_sudo_init env).ctx = some ctx →
      (sdap_sudo_init env).fetch_started = true →
      ReachableCtx (sdap_sudo_get_hostinfo_done ctx recv).ctx

/-- Provider contexts reachable once no host-identity fetch is pending:
either init finished without leaving a fetch in flight, or the fetch's
completion callback has run. -/
inductive SettledCtx : SudoCtx → Prop
  | init_no_fetch (env : InitEnv) (ctx : SudoCtx) :
      (sdap_sudo_init env).ctx = some ctx →
      (sdap_sudo_init env).fetch_started = false →
      SettledCtx ctx
  | hostinfo_done_ctx (env : InitEnv) (ctx : SudoCtx)
      (recv : Except Nat (List String × List String)) :
      (sdap_sudo_init env).ctx = some ctx →
      (sdap_sudo_init env).fetch_started = true →
      SettledCtx (sdap_sudo_get_hostinfo_done ctx recv).ctx

/-- Claim C3: for every accepted request, along every reachable path of the
request state machine — the offline short-circuit, the unrecognized-kind
path, the dispatch-failure path, and normal completion through the
completion callback — the reply channel sdap_handler_done is invoked
exactly once. -/
theorem reply_channel_invoked_exactly_once (env : HandlerEnv)
    (sudo_req : BeSudoReq) (outcome : RecvResult) :
    (handleRequest env sudo_req outcome).length = 1 := by
  by_cases ho : env.offline = true
  · simp [handleRequest, sdap_sudo_handler, ho]
  · by_cases hf : sudo_req.type = BE_REQ_SUDO_FULL
    · by_cases hs : env.fullSendOk = true
      · simp [handleRequest, sdap_sudo_handler, BE_REQ_SUDO_FULL,
          BE_REQ_SUDO_RULES, ho, hf, hs]
      · simp [handleRequest, sdap_sudo_handler, BE_REQ_SUDO_FULL,
          BE_REQ_SUDO_RULES, ho, hf, hs]
    · by_cases hr : sudo_req.type = BE_REQ_SUDO_RULES
      · by_cases hs : env.rulesSendOk = true
        · simp [handleRequest, sdap_sudo_handler, BE_REQ_SUDO_FULL,
            BE_REQ_SUDO_RULES, ho, hf, hr, hs]
        · simp [handleRequest, sdap_sudo_handler, BE_REQ_SUDO_FULL,
            BE_REQ_SUDO_RULES, ho, hf, hr, hs]
      · simp [handleRequest, sdap_sudo_handler, ho, hf, hr]

/-- Claim C4: while the shared connectivity state reports offline, the
handler replies immediately with DP_ERR_OFFLINE and errno EAGAIN and
dispatches no collaborator. -/
theorem offline_short_circuit (env : HandlerEnv) (sudo_req : BeSudoReq)
    (h : env.offline = true) :
    sdap_sudo_handler env sudo_req =
      { replies := [{ dpError := .offline, errnum := EAGAIN }]
        dispatched := none } := by
  simp [sdap_sudo_handler, h]

/-- Witness for offline_short_circuit at a concrete offline environment and
a full-refresh request. -/
theorem offline_short_circuit_witness :
    (⟨true, true, true⟩ : HandlerEnv).offline = true ∧
    sdap_sudo_handler ⟨true, true, true⟩ ⟨BE_REQ_SUDO_FULL, []⟩ =
      { replies := [{ dpError := .offline, errnum := EAGAIN }]
        dispatched := none } :=
  ⟨rfl, offline_short_circuit ⟨true, true, true⟩ ⟨BE_REQ_SUDO_FULL, []⟩ rfl⟩

/-- Claim C9: the offline check precedes request-kind validation: while
offline the handler's outcome does not depend on the request at all (the
payload is never examined), and the reply is the offline short-circuit, so
in particular an unrecognized kind never produces the fatal reply while
offline. -/
theorem offline_precedes_kind_check (env : HandlerEnv) (r1 r2 : BeSudoReq)
    (h : env.offline = true) :
    sdap_sudo_handler env r1 = sdap_sudo_handler env r2 ∧
    (sdap_sudo_handler env r1).replies =
      [{ dpError := .offline, errnum := EAGAIN }] := by
  constructor
  · simp [sdap_sudo_handler, h]
  · simp [sdap_sudo_handler, h]

/-- Witness for offline_precedes_kind_check: an offline request with an
unrecognized kind 9 behaves exactly as a full-refresh request does. -/
theorem offline_precedes_kind_check_witness :
    sdap_sudo_handler ⟨true, false, false⟩ ⟨9, ["r"]⟩ =
      sdap_sudo_handler ⟨true, false, false⟩ ⟨BE_REQ_SUDO_FULL, []⟩ ∧
    (sdap_sudo_handler ⟨true, false, false⟩ ⟨9, ["r"]⟩).replies =
      [{ dpError := .offline, errnum := EAGAIN }] :=
  offline_precedes_kind_check ⟨true, false, false⟩ ⟨9, ["r"]⟩
    ⟨BE_REQ_SUDO_FULL, []⟩ rfl

/-- Counterexample to claim C2 as stated: for an online request of the
unrecognized kind 7 the handler replies with category DP_ERR_FATAL but with
errno EINVAL, which differs from the internal-error code ERR_INTERNAL that
the claim names. -/
theorem handler_unknown_kind_cex :
    sdap_sudo_handler ⟨false, true, true⟩ ⟨7, []⟩ =
      { replies := [{ dpError := .fatal, errnum := EINVAL }]
        dispatched := none } ∧
    EINVAL ≠ ERR_INTERNAL := by
  refine ⟨rfl, ?_⟩
  decide

/-- Claim C2 as amended: for every online request whose kind is neither
BE_REQ_SUDO_FULL nor BE_REQ_SUDO_RULES, the handler replies with category
DP_ERR_FATAL and errno EINVAL, and dispatches no collaborator. -/
theorem handler_unknown_kind (env : HandlerEnv) (sudo_req : BeSudoReq)
    (ho : env.offline = false)
    (hf : sudo_req.type ≠ BE_REQ_SUDO_FULL)
    (hr : sudo_req.type ≠ BE_REQ_SUDO_RULES) :
    sdap_sudo_handler env sudo_req =
      { replies := [{ dpError := .fatal, errnum := EINVAL }]
        dispatched := none } := by
  simp [sdap_sudo_handler, ho, hf, hr]

/-- Witness for handler_unknown_kind at the concrete unrecognized kind 7
while online. -/
theorem handler_unknown_kind_witness :
    sdap_sudo_handler ⟨false, true, true⟩ ⟨7, []⟩ =
      { replies := [{ dpError := .fatal, errnum := EINVAL }]
        dispatched := none } :=
  handler_unknown_kind ⟨false, true, true⟩ ⟨7, []⟩ rfl (by decide) (by decide)

/-- Claim C5: when the dispatched operation of a rules request completes
with return code EOK but deleted == true, the completion callback remaps
the final reply's errno to ENOENT. -/
theorem rules_deleted_remap (recv : RecvResult)
    (h1 : recv.ret = EOK) (h2 : recv.deleted = true) :
    sdap_sudo_reply BE_REQ_SUDO_RULES recv =
      { dpError := recv.dp_error, errnum := ENOENT } := by
  simp [sdap_sudo_reply, BE_REQ_SUDO_RULES, BE_REQ_SUDO_FULL, h1, h2]

/-- Witness for rules_deleted_remap at a concrete successful-but-deleted
outcome. -/
theorem rules_deleted_remap_witness :
    sdap_sudo_reply BE_REQ_SUDO_RULES ⟨EOK, .ok, true⟩ =
      { dpError := .ok, errnum := ENOENT } :=
  rules_deleted_remap ⟨EOK, .ok, true⟩ rfl rfl

/-- Claim C8: when loading the sudo options fails, sdap_sudo_init returns
that error code, frees the context, and makes neither a host-identity fetch
nor any scheduler-arm attempt. -/
theorem init_options_failure (env : InitEnv) (h : env.options_ret ≠ EOK) :
    sdap_sudo_init env =
      { ret := env.options_ret, ctx := none, arm_attempts := 0
        fetch_started := false } := by
  simp [sdap_sudo_init, h]

/-- Witness for init_options_failure at the concrete options error 5
(EIO). -/
theorem init_options_failure_witness :
    sdap_sudo_init ⟨5, ⟨true, true, true⟩, true, EOK⟩ =
      { ret := 5, ctx := none, arm_attempts := 0, fetch_started := false } :=
  init_options_failure ⟨5, ⟨true, true, true⟩, true, EOK⟩ (by decide)

/-- Counterexample to claim C1 as stated: in an initialization run whose
host-identity fetch starts successfully, sdap_sudo_init makes zero
synchronous scheduler-arm attempts, not one — sdap_sudo_ptask_setup is
called synchronously only on the branch where the fetch could not be
started. -/
theorem init_sync_arm_cex :
    (sdap_sudo_init ⟨EOK, ⟨true, false, false⟩, true, EOK⟩).fetch_started
      = true ∧
    (sdap_sudo_init ⟨EOK, ⟨true, false, false⟩, true, EOK⟩).arm_attempts
      = 0 := by
  exact ⟨rfl, rfl⟩

/-- Claim C1 as amended: when the fetch starts successfully no synchronous
scheduler-arm attempt is made during initialization and initialization
succeeds; when the fetch cannot be started exactly one synchronous attempt
is made and initialization still succeeds (whatever code
sdap_sudo_ptask_setup returns); and the fetch's completion callback always
makes exactly one further attempt, whatever the fetch's outcome. -/
theorem ptask_setup_attempts (env : InitEnv) (h : env.options_ret = EOK) :
    (env.hostinfo_send_ok = true →
        (sdap_sudo_init env).arm_attempts = 0 ∧
        (sdap_sudo_init env).fetch_started = true ∧
        (sdap_sudo_init env).ret = EOK) ∧
    (env.hostinfo_send_ok = false →
        (sdap_sudo_init env).arm_attempts = 1 ∧
        (sdap_sudo_init env).fetch_started = false ∧
        (sdap_sudo_init env).ret = EOK) ∧
    (∀ (ctx : SudoCtx) (recv : Except Nat (List String × List String)),
        (sdap_sudo_get_hostinfo_done ctx recv).arm_attempts = 1) := by
  refine ⟨fun hs => ?_, fun hs => ?_, fun ctx recv => ?_⟩
  · simp [sdap_sudo_init, h, hs]
  · simp [sdap_sudo_init, h, hs]
  · cases recv with
    | error e => rfl
    | ok p => obtain ⟨a, b⟩ := p; rfl

/-- Witness for ptask_setup_attempts: in a run whose fetch starts, init
arms zero times and the completion callback arms once even on a failed
fetch. -/
theorem ptask_setup_attempts_witness :
    (sdap_sudo_init ⟨EOK, ⟨true, false, false⟩, true, EOK⟩).arm_attempts
      = 0 ∧
    (sdap_sudo_get_hostinfo_done ⟨false, true, false, false, none, none⟩
      (.error 5)).arm_attempts = 1 :=
  ⟨((ptask_setup_attempts ⟨EOK, ⟨true, false, false⟩, true, EOK⟩ rfl).1
      rfl).1,
   (ptask_setup_attempts ⟨EOK, ⟨true, false, false⟩, true, EOK⟩ rfl).2.2
      ⟨false, true, false, false, none, none⟩ (.error 5)⟩

/-- Claim C6: whichever way the host-identity fetch fails — the send cannot
even start, or the fetch completes with an error — use_host_filter is false
afterwards regardless of the configured option, and the provider continues
(initialization still returns EOK on the cannot-start path). -/
theorem use_host_filter_disabled_on_fetch_failure :
    (∀ (env : InitEnv) (ctx : SudoCtx), env.hostinfo_send_ok = false →
        (sdap_sudo_init env).ctx = some ctx →
        ctx.use_host_filter = false ∧ (sdap_sudo_init env).ret = EOK) ∧
    (∀ (ctx : SudoCtx) (e : Nat),
        (sdap_sudo_get_hostinfo_done ctx (.error e)).ctx.use_host_filter
          = false) := by
  constructor
  · intro env ctx hs hc
    by_cases h : env.options_ret = EOK
    · simp [sdap_sudo_init, h, hs] at hc ⊢
      rw [← hc]
    · simp [sdap_sudo_init, h] at hc
  · intro ctx e
    rfl

/-- Witness for use_host_filter_disabled_on_fetch_failure: a run whose
fetch cannot start, with host filtering configured on, ends with
use_host_filter false; and a failed fetch completion forces it false. -/
theorem use_host_filter_disabled_on_fetch_failure_witness :
    ((⟨false, false, false, false, none, none⟩ : SudoCtx).use_host_filter
        = false ∧
      (sdap_sudo_init ⟨EOK, ⟨true, false, false⟩, false, EOK⟩).ret = EOK) ∧
    (sdap_sudo_get_hostinfo_done ⟨false, true, false, false, none, none⟩
      (.error 5)).ctx.use_host_filter = false :=
  ⟨use_host_filter_disabled_on_fetch_failure.1
      ⟨EOK, ⟨true, false, false⟩, false, EOK⟩
      ⟨false, false, false, false, none, none⟩ rfl rfl,
   use_host_filter_disabled_on_fetch_failure.2
      ⟨false, true, false, false, none, none⟩ 5⟩

/-- Counterexample to claim C7 as stated: the context that sdap_sudo_init
leaves behind when host filtering is configured on and the fetch has been
started but has not yet completed is reachable, has use_host_filter true,
and holds no host identity. -/
theorem reachable_host_filter_invariant_cex :
    ReachableCtx ⟨false, true, false, false, none, none⟩ ∧
    (⟨false, true, false, false, none, none⟩ : SudoCtx).use_host_filter
      = true ∧
    (⟨false, true, false, false, none, none⟩ : SudoCtx).hostnames = none :=
  ⟨ReachableCtx.init_ctx ⟨EOK, ⟨true, false, false⟩, true, EOK⟩
      ⟨false, true, false, false, none, none⟩ rfl, rfl, rfl⟩

/-- Claim C7 as amended: in every reachable context in which no
host-identity fetch is pending (the fetch could not be started, or its
completion callback has run), use_host_filter == true implies the host
identity — hostnames and addresses — is present. -/
theorem settled_host_filter_invariant (ctx : SudoCtx) (h : SettledCtx ctx)
    (hu : ctx.use_host_filter = true) :
    ctx.hostnames.isSome = true ∧ ctx.ip_addr.isSome = true := by
  induction h with
  | init_no_fetch env c hc hf =>
    by_cases h0 : env.options_ret = EOK
    · by_cases hs : env.hostinfo_send_ok = true
      · simp [sdap_sudo_init, h0, hs] at hf
      · simp [sdap_sudo_init, h0, hs] at hc
        rw [← hc] at hu
        simp at hu
    · simp [sdap_sudo_init, h0] at hc
  | hostinfo_done_ctx env c recv hc hf =>
    cases recv with
    | error e =>
      simp [sdap_sudo_get_hostinfo_done] at hu
    | ok p =>
      obtain ⟨a, b⟩ := p
      simp [sdap_sudo_get_hostinfo_done]

/-- Witness for settled_host_filter_invariant: after a successful fetch
completion in a run configured with host filtering on, the settled context
holds hostnames and addresses. -/
theorem settled_host_filter_invariant_witness :
    (sdap_sudo_get_hostinfo_done ⟨false, true, false, false, none, none⟩
        (Except.ok (["h1"], ["192.0.2.1"]))).ctx.hostnames.isSome = true ∧
    (sdap_sudo_get_hostinfo_done ⟨false, true, false, false, none, none⟩
        (Except.ok (["h1"], ["192.0.2.1"]))).ctx.ip_addr.isSome = true :=
  settled_host_filter_invariant _
    (SettledCtx.hostinfo_done_ctx ⟨EOK, ⟨true, false, false⟩, true, EOK⟩
      ⟨false, true, false, false, none, none⟩
      (Except.ok (["h1"], ["192.0.2.1"])) rfl rfl)
    rfl

/-- Claim C10: after the options are loaded no operation of this module
ever raises use_host_filter: the completion callback never turns it from
false to true, and a context produced by init has it true only when the
configured option requested it — so once disabled it stays disabled. -/
theorem use_host_filter_never_reenabled :
    (∀ (ctx : SudoCtx) (recv : Except Nat (List String × List String)),
        ctx.use_host_filter = false →
        (sdap_sudo_get_hostinfo_done ctx recv).ctx.use_host_filter
          = false) ∧
    (∀ (env : InitEnv) (ctx : SudoCtx), (sdap_sudo_init env).ctx = some ctx →
        ctx.use_host_filter = true → env.options.use_host_filter = true) := by
  constructor
  · intro ctx recv hu
    cases recv with
    | error e => rfl
    | ok p => obtain ⟨a, b⟩ := p; simpa [sdap_sudo_get_hostinfo_done] using hu
  · intro env ctx hc hu
    by_cases h0 : env.options_ret = EOK
    · by_cases hs : env.hostinfo_send_ok = true
      · simp [sdap_sudo_init, h0, hs] at hc
        rw [← hc] at hu
        exact hu
      · simp [sdap_sudo_init, h0, hs] at hc
        rw [← hc] at hu
        simp at hu
    · simp [sdap_sudo_init, h0] at hc

/-- Witness for use_host_filter_never_reenabled: a successful fetch
completion leaves a disabled host filter disabled, and a context out of
init with the filter on comes from a configuration with the option on. -/
theorem use_host_filter_never_reenabled_witness :
    (sdap_sudo_get_hostinfo_done ⟨false, false, false, false, none, none⟩
      (Except.ok (["h1"], ["192.0.2.1"]))).ctx.use_host_filter = false ∧
    (⟨EOK, ⟨true, false, false⟩, true, EOK⟩ : InitEnv).options.use_host_filter
      = true :=
  ⟨use_host_filter_never_reenabled.1
      ⟨false, false, false, false, none, none⟩
      (Except.ok (["h1"], ["192.0.2.1"])) rfl,
   use_host_filter_never_reenabled.2 ⟨EOK, ⟨true, false, false⟩, true, EOK⟩
      ⟨false, true, false, false, none, none⟩ rfl rfl⟩

end SdapSudo
